import Mathlib

/-!
Formal model of the slackbotbuilder workflow engine.

Shallow embedding of the Python sources:
  workflow_manager.py  (workflow matching, script / prompt execution)
  agents.py            (tool-augmented agent loop, log analyser)
  mcp_servers/mcp_utils.py (JSON-RPC tool registry client)
  slack_events.py      (message-event handler with dedup)
  scripts/prompt_executor.py (prompt-execution child process)

Python dicts carrying JSON data are modelled by `JValue`; strings by Lean
`String` (character lists); external effects (HTTP transport, the LLM
endpoint, the tokenizer, file system probes, spawned processes) are
modelled as explicit parameters so that every function is pure and
executable.
-/

namespace SlackBot

/-- JSON values, the data interchanged between the bot, its child processes
and the tool servers.  Numeric literals are modelled as integers (the
repository's interprocess payloads use only integers and strings). -/
inductive JValue where
  | null : JValue
  | bool (b : Bool) : JValue
  | num (n : Int) : JValue
  | str (s : String) : JValue
  | arr (xs : List JValue) : JValue
  | obj (kvs : List (String × JValue)) : JValue
deriving Repr

mutual

/-- Decidable equality on JSON values (the automatic derivation does not
handle this nested inductive). -/
def JValue.decEqFn : (a b : JValue) → Decidable (a = b)
  | .null, .null => .isTrue rfl
  | .bool a, .bool b =>
      match decEq a b with
      | .isTrue h => .isTrue (h ▸ rfl)
      | .isFalse h => .isFalse fun he => h (JValue.noConfusion he fun h' => h')
  | .num a, .num b =>
      match decEq a b with
      | .isTrue h => .isTrue (h ▸ rfl)
      | .isFalse h => .isFalse fun he => h (JValue.noConfusion he fun h' => h')
  | .str a, .str b =>
      match decEq a b with
      | .isTrue h => .isTrue (h ▸ rfl)
      | .isFalse h => .isFalse fun he => h (JValue.noConfusion he fun h' => h')
  | .arr a, .arr b =>
      match JValue.decEqListFn a b with
      | .isTrue h => .isTrue (h ▸ rfl)
      | .isFalse h => .isFalse fun he => h (JValue.noConfusion he fun h' => h')
  | .obj a, .obj b =>
      match JValue.decEqKvsFn a b with
      | .isTrue h => .isTrue (h ▸ rfl)
      | .isFalse h => .isFalse fun he => h (JValue.noConfusion he fun h' => h')
  | .null, .bool _ => .isFalse fun he => JValue.noConfusion he
  | .null, .num _ => .isFalse fun he => JValue.noConfusion he
  | .null, .str _ => .isFalse fun he => JValue.noConfusion he
  | .null, .arr _ => .isFalse fun he => JValue.noConfusion he
  | .null, .obj _ => .isFalse fun he => JValue.noConfusion he
  | .bool _, .null => .isFalse fun he => JValue.noConfusion he
  | .bool _, .num _ => .isFalse fun he => JValue.noConfusion he
  | .bool _, .str _ => .isFalse fun he => JValue.noConfusion he
  | .bool _, .arr _ => .isFalse fun he => JValue.noConfusion he
  | .bool _, .obj _ => .isFalse fun he => JValue.noConfusion he
  | .num _, .null => .isFalse fun he => JValue.noConfusion he
  | .num _, .bool _ => .isFalse fun he => JValue.noConfusion he
  | .num _, .str _ => .isFalse fun he => JValue.noConfusion he
  | .num _, .arr _ => .isFalse fun he => JValue.noConfusion he
  | .num _, .obj _ => .isFalse fun he => JValue.noConfusion he
  | .str _, .null => .isFalse fun he => JValue.noConfusion he
  | .str _, .bool _ => .isFalse fun he => JValue.noConfusion he
  | .str _, .num _ => .isFalse fun he => JValue.noConfusion he
  | .str _, .arr _ => .isFalse fun he => JValue.noConfusion he
  | .str _, .obj _ => .isFalse fun he => JValue.noConfusion he
  | .arr _, .null => .isFalse fun he => JValue.noConfusion he
  | .arr _, .bool _ => .isFalse fun he => JValue.noConfusion he
  | .arr _, .num _ => .isFalse fun he => JValue.noConfusion he
  | .arr _, .str _ => .isFalse fun he => JValue.noConfusion he
  | .arr _, .obj _ => .isFalse fun he => JValue.noConfusion he
  | .obj _, .null => .isFalse fun he => JValue.noConfusion he
  | .obj _, .bool _ => .isFalse fun he => JValue.noConfusion he
  | .obj _, .num _ => .isFalse fun he => JValue.noConfusion he
  | .obj _, .str _ => .isFalse fun he => JValue.noConfusion he
  | .obj _, .arr _ => .isFalse fun he => JValue.noConfusion he

def JValue.decEqListFn : (a b : List JValue) → Decidable (a = b)
  | [], [] => .isTrue rfl
  | [], _ :: _ => .isFalse fun he => List.noConfusion he
  | _ :: _, [] => .isFalse fun he => List.noConfusion he
  | a :: as, b :: bs =>
      match JValue.decEqFn a b with
      | .isTrue h1 =>
        match JValue.decEqListFn as bs with
        | .isTrue h2 => .isTrue (h1 ▸ h2 ▸ rfl)
        | .isFalse h2 => .isFalse fun he => h2 (List.noConfusion he fun _ ht => ht)
      | .isFalse h1 => .isFalse fun he => h1 (List.noConfusion he fun hh _ => hh)

def JValue.decEqKvsFn : (a b : List (String × JValue)) → Decidable (a = b)
  | [], [] => .isTrue rfl
  | [], _ :: _ => .isFalse fun he => List.noConfusion he
  | _ :: _, [] => .isFalse fun he => List.noConfusion he
  | (k, v) :: as, (k', v') :: bs =>
      match decEq k k' with
      | .isTrue hk =>
        match JValue.decEqFn v v' with
        | .isTrue hv =>
          match JValue.decEqKvsFn as bs with
          | .isTrue h2 => .isTrue (hk ▸ hv ▸ h2 ▸ rfl)
          | .isFalse h2 => .isFalse fun he => h2 (List.noConfusion he fun _ ht => ht)
        | .isFalse hv =>
          .isFalse fun he =>
            hv (List.noConfusion he fun hh _ => congrArg Prod.snd hh)
      | .isFalse hk =>
        .isFalse fun he =>
          hk (List.noConfusion he fun hh _ => congrArg Prod.fst hh)

end

instance : DecidableEq JValue := JValue.decEqFn

/-- Lookup of a key in a JSON object (Python `d[k]` / `k in d` on dicts);
returns the value bound to the first occurrence of the key. -/
def jGet (j : JValue) (key : String) : Option JValue :=
  match j with
  | .obj kvs => kvs.lookup key
  | _ => none

/-- Python dict assignment `d[k] = v`: replaces the binding of `k` if the key
is present, appends it otherwise. -/
def objSet (kvs : List (String × JValue)) (key : String) (v : JValue) :
    List (String × JValue) :=
  match kvs with
  | [] => [(key, v)]
  | (k, w) :: rest =>
      if k = key then (k, v) :: rest else (k, w) :: objSet rest key v

/-- Python truthiness of a JSON value (`if x:`): `None`, `False`, `0`, `""`,
`[]` and `{}` are falsy, everything else is truthy. -/
def jvTruthy : JValue → Bool
  | .null => false
  | .bool b => b
  | .num n => n != 0
  | .str s => s != ""
  | .arr xs => !xs.isEmpty
  | .obj kvs => !kvs.isEmpty

/-- Python `str.strip()` whitespace class (space, tab, newline, carriage
return, form feed, vertical tab). -/
def pyIsSpace (c : Char) : Bool :=
  c = ' ' || c = '\t' || c = '\n' || c = '\x0d' || c = '\x0c' || c = '\x0b'

/-- Python `s.strip()`: drop leading and trailing whitespace. -/
def pyStrip (s : String) : String :=
  String.mk (((s.data.dropWhile pyIsSpace).reverse.dropWhile pyIsSpace).reverse)

/-- Python slicing `s[:n]`: keep the first `n` characters. -/
def pySlice (n : Nat) (s : String) : String :=
  String.mk (s.data.take n)

/-! Model of Python `json.loads`.  A recursive-descent parser for the JSON
grammar (objects, arrays, strings with escapes, integers, `true`/`false`/
`null`); floating-point and exponent literals are outside the model (the
repository's interprocess payloads use only integers and strings).
Duplicate object keys keep the last binding, as Python dicts do.  The
recursion is driven by a fuel counter so the definition is structural and
kernel-evaluable; the fuel supplied by `jsonLoads` always suffices. -/

/-- JSON insignificant whitespace. -/
def jsonWs (c : Char) : Bool :=
  c = ' ' || c = '\t' || c = '\n' || c = '\x0d'

def skipWs (s : List Char) : List Char :=
  s.dropWhile jsonWs

def hexVal (c : Char) : Option Nat :=
  if '0' ≤ c ∧ c ≤ '9' then some (c.toNat - 48)
  else if 'a' ≤ c ∧ c ≤ 'f' then some (c.toNat - 87)
  else if 'A' ≤ c ∧ c ≤ 'F' then some (c.toNat - 55)
  else none

/-- Single-character JSON escapes. -/
def escChar (c : Char) : Option Char :=
  if c = '"' then some '"'
  else if c = '\\' then some '\\'
  else if c = '/' then some '/'
  else if c = 'n' then some '\n'
  else if c = 't' then some '\t'
  else if c = 'r' then some '\x0d'
  else if c = 'b' then some '\x08'
  else if c = 'f' then some '\x0c'
  else none

/-- Parse the body of a JSON string after the opening quote; returns the
decoded characters and the input following the closing quote. -/
def parseStrBody : List Char → Option (List Char × List Char)
  | [] => none
  | '\\' :: rest =>
      match rest with
      | [] => none
      | e :: rest' =>
        if e = 'u' then
          match rest' with
          | h1 :: h2 :: h3 :: h4 :: rest2 =>
            match hexVal h1, hexVal h2, hexVal h3, hexVal h4 with
            | some a, some b, some c, some d =>
              match parseStrBody rest2 with
              | some (cs, r) => some (Char.ofNat (((a * 16 + b) * 16 + c) * 16 + d) :: cs, r)
              | none => none
            | _, _, _, _ => none
          | _ => none
        else
          match escChar e with
          | some c =>
            match parseStrBody rest' with
            | some (cs, r) => some (c :: cs, r)
            | none => none
          | none => none
  | c :: rest =>
      if c = '"' then some ([], rest)
      else
        match parseStrBody rest with
        | some (cs, r) => some (c :: cs, r)
        | none => none

/-- Accumulate a run of decimal digits. -/
def digitsAux : Nat → List Char → Nat × List Char
  | acc, [] => (acc, [])
  | acc, c :: rest =>
      if c.isDigit then digitsAux (acc * 10 + (c.toNat - 48)) rest
      else (acc, c :: rest)

/-- Python dict construction from a member list: later duplicate keys
overwrite earlier ones. -/
def buildDict (xs : List (String × JValue)) : List (String × JValue) :=
  xs.foldl (fun acc kv => objSet acc kv.1 kv.2) []

/-- Parser mode: one value, array items, array continuation, object members,
object continuation. -/
inductive PMode where
  | val
  | arrItems
  | arrTail
  | objItems
  | objTail

/-- Parser intermediate results. -/
inductive PRes where
  | v (x : JValue)
  | vs (xs : List JValue)
  | kvs (xs : List (String × JValue))

def parseF : Nat → PMode → List Char → Option (PRes × List Char)
  | 0, _, _ => none
  | fuel + 1, mode, s =>
    match mode with
    | .val =>
      match skipWs s with
      | [] => none
      | c :: rest =>
        if c = '{' then
          match parseF fuel .objItems rest with
          | some (.kvs xs, r) => some (.v (.obj (buildDict xs)), r)
          | _ => none
        else if c = '[' then
          match parseF fuel .arrItems rest with
          | some (.vs xs, r) => some (.v (.arr xs), r)
          | _ => none
        else if c = '"' then
          match parseStrBody rest with
          | some (cs, r) => some (.v (.str (String.mk cs)), r)
          | none => none
        else if c = 't' then
          match rest with
          | 'r' :: 'u' :: 'e' :: r => some (.v (.bool true), r)
          | _ => none
        else if c = 'f' then
          match rest with
          | 'a' :: 'l' :: 's' :: 'e' :: r => some (.v (.bool false), r)
          | _ => none
        else if c = 'n' then
          match rest with
          | 'u' :: 'l' :: 'l' :: r => some (.v .null, r)
          | _ => none
        else if c = '-' then
          match rest with
          | d :: r2 =>
            if d.isDigit then
              let p := digitsAux (d.toNat - 48) r2
              some (.v (.num (-(p.1 : Int))), p.2)
            else none
          | [] => none
        else if c.isDigit then
          let p := digitsAux (c.toNat - 48) rest
          some (.v (.num (p.1 : Int)), p.2)
        else none
    | .arrItems =>
      match skipWs s with
      | [] => none
      | c :: rest =>
        if c = ']' then some (.vs [], rest)
        else
          match parseF fuel .val s with
          | some (.v x, r) =>
            match parseF fuel .arrTail r with
            | some (.vs xs, r') => some (.vs (x :: xs), r')
            | _ => none
          | _ => none
    | .arrTail =>
      match skipWs s with
      | [] => none
      | c :: rest =>
        if c = ']' then some (.vs [], rest)
        else if c = ',' then
          match parseF fuel .val rest with
          | some (.v x, r) =>
            match parseF fuel .arrTail r with
            | some (.vs xs, r') => some (.vs (x :: xs), r')
            | _ => none
          | _ => none
        else none
    | .objItems =>
      match skipWs s with
      | [] => none
      | c :: rest =>
        if c = '}' then some (.kvs [], rest)
        else if c = '"' then
          match parseStrBody rest with
          | some (cs, r) =>
            match skipWs r with
            | ':' :: r2 =>
              match parseF fuel .val r2 with
              | some (.v x, r3) =>
                match parseF fuel .objTail r3 with
                | some (.kvs xs, r4) => some (.kvs ((String.mk cs, x) :: xs), r4)
                | _ => none
              | _ => none
            | _ => none
          | none => none
        else none
    | .objTail =>
      match skipWs s with
      | [] => none
      | c :: rest =>
        if c = '}' then some (.kvs [], rest)
        else if c = ',' then
          match skipWs rest with
          | '"' :: r1 =>
            match parseStrBody r1 with
            | some (cs, r) =>
              match skipWs r with
              | ':' :: r2 =>
                match parseF fuel .val r2 with
                | some (.v x, r3) =>
                  match parseF fuel .objTail r3 with
                  | some (.kvs xs, r4) => some (.kvs ((String.mk cs, x) :: xs), r4)
                  | _ => none
                | _ => none
              | _ => none
            | none => none
          | _ => none
        else none

/-- Model of Python `json.loads`: parse one JSON document; any non-whitespace
trailing input is an error (`json.loads` rejects trailing data). -/
def jsonLoads (s : String) : Option JValue :=
  match parseF (2 * s.length + 8) .val s.data with
  | some (.v x, r) => if (skipWs r).isEmpty then some x else none
  | _ => none

/-! Wildcard content patterns (`WorkflowManager.match_workflow`,
workflow_manager.py lines 91-108).

The code turns the wildcard into a regular expression by textual
substitution (`'*'` ↦ `'.*'`, `'?'` ↦ `'.'`), surrounds it with `\b`
word-boundary anchors when the original wildcard contains no `'*'`, and runs
`re.search(..., re.IGNORECASE)` on the message text.

`regexPatternOfWildcard` is the literal string-level translation.
`wildcardSearch` gives the translated pattern its `re` semantics for
wildcards whose characters besides `*`, `?` and `.` are ordinary (not regex
metacharacters): `*` becomes `.*` (any run of non-newline characters), `?`
and `.` match any single non-newline character, anything else matches
itself case-insensitively, and `\b` is a zero-width word-boundary test. -/

/-- Python `str.replace(pat, rep)`: replace all non-overlapping occurrences
left to right.  Driven by a fuel counter (one unit per input character)
so the recursion is structural. -/
def replaceAllFuel (pat rep : List Char) : Nat → List Char → List Char
  | 0, l => l
  | _ + 1, [] => []
  | fuel + 1, c :: cs =>
      if !pat.isEmpty && pat.isPrefixOf (c :: cs) then
        rep ++ replaceAllFuel pat rep fuel ((c :: cs).drop pat.length)
      else
        c :: replaceAllFuel pat rep fuel cs

def replaceAll (pat rep : List Char) (l : List Char) : List Char :=
  replaceAllFuel pat rep l.length l

/-- The regex text built from a wildcard pattern (lines 97-101): substitute
`*` ↦ `.*` and `?` ↦ `.`, then add `\b` anchors when the wildcard contains
no `*`. -/
def regexPatternOfWildcard (w : String) : String :=
  let p := String.mk (replaceAll ['?'] ['.'] (replaceAll ['*'] ['.', '*'] w.data))
  if w.data.contains '*' then p else "\\b" ++ p ++ "\\b"

/-- Tokens of the translated pattern: a literal character, `.` (any single
non-newline character), or `.*` (any run of non-newline characters). -/
inductive GTok where
  | lit (c : Char)
  | any
  | star

/-- Token form of the translated wildcard: `*` ↦ `star`; `?` ↦ `any`; `.`
passes through the translation untouched and is the regex any-character;
every other character is a literal. -/
def translateWildcard (w : List Char) : List GTok :=
  w.map fun c =>
    if c = '*' then .star
    else if c = '?' || c = '.' then .any
    else .lit c

/-- Word characters for the `\b` assertion (regex `\w`, ASCII part). -/
def isWordChar (c : Char) : Bool :=
  c.isAlphanum || c = '_'

def isWordCharO : Option Char → Bool
  | none => false
  | some c => isWordChar c

/-- The `\b` word-boundary assertion between an optional previous character
and an optional next character. -/
def boundaryB (prev next : Option Char) : Bool :=
  isWordCharO prev != isWordCharO next

/-- All ways `.*` can consume a newline-free prefix of the input, paired with
the last character consumed so far. -/
def splitsWithLast : Option Char → List Char → List (Option Char × List Char)
  | last, [] => [(last, [])]
  | last, a :: s =>
      (last, a :: s) :: (if a = '\n' then [] else splitsWithLast (some a) s)

/-- Match the token list against a prefix of the input.  Each result is the
last character consumed (for the closing `\b` test) and the remaining
input.  Literal comparison is case-insensitive (`re.IGNORECASE`). -/
def gmatchRem : List GTok → Option Char → List Char → List (Option Char × List Char)
  | [], last, s => [(last, s)]
  | .lit _ :: _, _, [] => []
  | .lit c :: ts, _, a :: s =>
      if a.toLower = c.toLower then gmatchRem ts (some a) s else []
  | .any :: _, _, [] => []
  | .any :: ts, _, a :: s =>
      if a = '\n' then [] else gmatchRem ts (some a) s
  | .star :: ts, last, s =>
      (splitsWithLast last s).flatMap fun p => gmatchRem ts p.1 p.2

/-- Does a match start at the current position?  When `bounded` is set the
`\b` anchors must hold before the first and after the last consumed
character. -/
def startHit (bounded : Bool) (toks : List GTok) (prev : Option Char) (s : List Char) : Bool :=
  (!bounded || boundaryB prev s.head?) &&
    (gmatchRem toks prev s).any fun p => !bounded || boundaryB p.1 p.2.head?

/-- Scan of `re.search`: try every start position. -/
def gsearchFrom (bounded : Bool) (toks : List GTok) : Option Char → List Char → Bool
  | prev, [] => startHit bounded toks prev []
  | prev, c :: rest =>
      startHit bounded toks prev (c :: rest) || gsearchFrom bounded toks (some c) rest

/-- The content check the matcher performs for a non-empty wildcard: search
the message text for the translated pattern, word-bounded when the wildcard
contains no `*`. -/
def wildcardSearch (wildcard : String) (text : String) : Bool :=
  gsearchFrom (!wildcard.data.contains '*') (translateWildcard wildcard.data) none text.data

/-! Workflow definitions and the matcher
(`WorkflowManager.match_workflow`, workflow_manager.py lines 57-112). -/

/-- One workflow definition from workflows.yaml.  `none` in an optional
field models the key being absent. -/
structure Workflow where
  name : Option String := none
  app_mention_required : Bool := false
  channel_name : Option String := none
  user_name : Option String := none
  wildcard : Option String := none
  action_script : Option String := none
  action_prompt : Option String := none
deriving DecidableEq

/-- The fields of the Slack message dict that the matcher reads. -/
structure MessageData where
  text : String := ""
deriving DecidableEq

/-- Model of `WorkflowManager.match_workflow`: walk the workflow list in
order; `continue` past a definition as soon as one predicate rejects;
return the first definition that survives every check, `None` otherwise. -/
def match_workflow : List Workflow → MessageData → String → String → Bool → Option Workflow
  | [], _, _, _, _ => none
  | w :: rest, md, channel_name, user_name, is_app_mentioned =>
      if w.app_mention_required && !is_app_mentioned then
        match_workflow rest md channel_name user_name is_app_mentioned
      else if (match w.channel_name with
               | some wc => wc != "*" && wc.toLower != channel_name.toLower
               | none => false) then
        match_workflow rest md channel_name user_name is_app_mentioned
      else if (match w.user_name with
               | some wu => wu != "*" && wu.toLower != user_name.toLower
               | none => false) then
        match_workflow rest md channel_name user_name is_app_mentioned
      else if (match w.wildcard with
               | some wp => wp != "" && !wildcardSearch wp md.text
               | none => false) then
        match_workflow rest md channel_name user_name is_app_mentioned
      else
        some w

/-! Spec-side reading of the matcher (spec.md sections 4.1 and 8): the four
predicates evaluated short-circuit in the stated order, and the match is
the first definition, in list order, whose predicates all hold. -/

/-- Mention-required check. -/
def mentionPred (w : Workflow) (is_app_mentioned : Bool) : Bool :=
  !(w.app_mention_required && !is_app_mentioned)

/-- Channel filter; `*` matches every channel, an absent filter passes. -/
def channelPred (w : Workflow) (channel_name : String) : Bool :=
  match w.channel_name with
  | some wc => wc == "*" || wc.toLower == channel_name.toLower
  | none => true

/-- User filter; `*` matches every user, an absent filter passes. -/
def userPred (w : Workflow) (user_name : String) : Bool :=
  match w.user_name with
  | some wu => wu == "*" || wu.toLower == user_name.toLower
  | none => true

/-- Content-pattern filter; an absent or empty wildcard passes. -/
def contentPred (w : Workflow) (text : String) : Bool :=
  match w.wildcard with
  | some wp => wp == "" || wildcardSearch wp text
  | none => true

/-- All predicates of a definition hold for the event, in the spec's
short-circuit order. -/
def workflowMatches (w : Workflow) (md : MessageData) (channel_name user_name : String)
    (is_app_mentioned : Bool) : Bool :=
  mentionPred w is_app_mentioned && channelPred w channel_name &&
    userPred w user_name && contentPred w md.text

/-! Python string conversion `str(x)` for parsed-JSON values, as used when
the code interpolates payloads into message strings.  Top-level strings
convert to themselves; containers use `repr`, where strings are
single-quoted (escaping inside `repr` of strings is not modelled: the
payloads interpolated by the code are plain identifiers). -/

mutual

def pyRepr : JValue → String
  | .null => "None"
  | .bool b => if b then "True" else "False"
  | .num n => toString n
  | .str s => "'" ++ s ++ "'"
  | .arr xs => "[" ++ pyReprList xs ++ "]"
  | .obj kvs => "\x7b" ++ pyReprKvs kvs ++ "\x7d"

def pyReprList : List JValue → String
  | [] => ""
  | [x] => pyRepr x
  | x :: y :: rest => pyRepr x ++ ", " ++ pyReprList (y :: rest)

def pyReprKvs : List (String × JValue) → String
  | [] => ""
  | [(k, v)] => "'" ++ k ++ "': " ++ pyRepr v
  | (k, v) :: p :: rest => "'" ++ k ++ "': " ++ pyRepr v ++ ", " ++ pyReprKvs (p :: rest)

end

/-- Python `str(x)`. -/
def pyStr : JValue → String
  | .str s => s
  | v => pyRepr v

/-- Python `str(x)` for an optional value (`None` prints as `None`). -/
def pyStrOpt : Option JValue → String
  | none => "None"
  | some v => pyStr v

/-! The agent loop (`agent_with_tools`, agents.py lines 20-66).

The LLM endpoint is modelled as an oracle `oracle : List ChatMsg →
ModelTurn` giving, for each message list sent to the completions API, the
single choice the API returns.  `execute_tool` (imported from
mcp_servers.mcp_utils) is modelled as an oracle `execTool` returning the
tool's result content, `none` standing for Python `None`.

The source function recurses with no bound of any kind; the `fuel`
argument below is an artifact of the embedding (Lean requires recursion to
terminate), not a bound present in the code: a run that would recurse
deeper than `fuel` model turns is mapped to `none`, so `agent_with_tools
… fuel msgs = none` for every `fuel` exhibits a run of the source that
never returns. -/

/-- One requested tool call of a model turn (OpenAI function-call format:
an id, a function name and a JSON-encoded argument string). -/
structure ToolCall where
  id : String
  name : String
  arguments : String
deriving DecidableEq

/-- One model turn: the assistant text and the requested tool calls
(`message.content or ""` and `message.tool_calls or []`). -/
structure ModelTurn where
  content : String
  tool_calls : List ToolCall
deriving DecidableEq

/-- One NDJSON event of an agent run. -/
inductive AgentEvent where
  | chat_text (content : String)
  | tool_result (tool_name : String) (tool_config : JValue) (tool_res : Option JValue)
      (tool_call_id : String)
deriving DecidableEq

/-- Conversation messages (role-tagged). -/
inductive ChatMsg where
  | system (content : String)
  | user (content : String)
  | assistant (content : String) (tool_calls : List ToolCall)
  | tool (content : String) (tool_call_id : String)
deriving DecidableEq

/-- Argument parsing of a tool call (lines 54-58): `json.loads` on the
argument string, degrading to the empty dict when parsing fails. -/
def parseToolArgs (s : String) : JValue :=
  (jsonLoads s).getD (.obj [])

/-- The tool-role message appended for one executed tool call (line 60). -/
def toolMsgOf (execTool : String → JValue → Option JValue) (tc : ToolCall) : ChatMsg :=
  let args := parseToolArgs tc.arguments
  .tool ("Tool " ++ tc.name ++ " Tool Arguments: " ++ pyStr args ++ " result: "
    ++ pyStrOpt (execTool tc.name args)) tc.id

/-- The `tool_result` NDJSON event emitted for one executed tool call
(line 62). -/
def toolEventOf (execTool : String → JValue → Option JValue) (tc : ToolCall) : AgentEvent :=
  let args := parseToolArgs tc.arguments
  .tool_result tc.name args (execTool tc.name args) tc.id

/-- The message list passed to the recursive call after a turn with tool
calls: the input list, then one assistant message recording the tool-call
intents, then one tool-role message per executed call (lines 46-61). -/
def nextMessages (execTool : String → JValue → Option JValue) (messages : List ChatMsg)
    (turn : ModelTurn) : List ChatMsg :=
  messages ++ ChatMsg.assistant turn.content turn.tool_calls
    :: turn.tool_calls.map (toolMsgOf execTool)

/-- Model of `agent_with_tools`: one model turn per recursion level.  Zero
tool calls: emit one `chat_text` event and stop.  Otherwise: emit
`chat_text`, execute every requested tool call in return order emitting a
`tool_result` event each, and recurse on the extended message list,
prepending this turn's events.  `fuel` is the embedding artifact described
above — the source has no turn bound. -/
def agent_with_tools (oracle : List ChatMsg → ModelTurn)
    (execTool : String → JValue → Option JValue) :
    Nat → List ChatMsg → Option (List AgentEvent)
  | 0, _ => none
  | fuel + 1, messages =>
    let turn := oracle messages
    match turn.tool_calls with
    | [] => some [.chat_text turn.content]
    | _ :: _ =>
      match agent_with_tools oracle execTool fuel (nextMessages execTool messages turn) with
      | none => none
      | some evs =>
          some (.chat_text turn.content :: turn.tool_calls.map (toolEventOf execTool) ++ evs)

/-- Number of tool invocations recorded in an event stream (the code emits
exactly one `tool_result` event per `execute_tool` call). -/
def countToolResults (evs : List AgentEvent) : Nat :=
  (evs.filter fun e =>
    match e with
    | .tool_result _ _ _ _ => true
    | _ => false).length

/-- A model oracle that requests one tool call on every turn, whatever the
messages are. -/
def alwaysToolOracle : List ChatMsg → ModelTurn :=
  fun _ => { content := "", tool_calls := [{ id := "call_1", name := "toolA", arguments := "\x7b\x7d" }] }

/-! The log analyser (`log_analyser_agent` and `count_tokens`, agents.py
lines 12-18 and 68-78).

`count_tokens` delegates to the external tiktoken encoder (returning `-1`
when the encoder raises); it is modelled as an oracle `count_tokens :
String → Int`.  `logs_data` enters the function only as `str(logs_data)`;
the model takes that string directly. -/

/-- The payload inserted into the user message (lines 71-76): when the
token count of the logs exceeds 20000 the logs are cut to their first
20000 characters (`str(logs_data)[:20000]`), otherwise they are passed
unchanged. -/
def insertedLogsPayload (count_tokens : String → Int) (logs_data : String) : String :=
  if count_tokens logs_data > 20000 then pySlice 20000 logs_data
  else logs_data

/-- Model of `log_analyser_agent`'s message construction: append one user
message carrying the (possibly cut) logs. -/
def log_analyser_messages (count_tokens : String → Int) (logs_data : String)
    (messages : List ChatMsg) : List ChatMsg :=
  messages ++ [ChatMsg.user ("Logs start here\n\n" ++ insertedLogsPayload count_tokens logs_data)]

/-- Concatenation of a token list back into a string. -/
def joinStr : List String → String
  | [] => ""
  | s :: rest => s ++ joinStr rest

/-- A tokenizer model: it decomposes every string into non-empty tokens
whose concatenation restores the string (every byte-pair/BPE encoder,
tiktoken included, has this shape). -/
def validTokenizer (enc : String → List String) : Prop :=
  ∀ s : String, joinStr (enc s) = s ∧ ∀ t ∈ enc s, t ≠ ""

/-- Modelled from the spec: hard truncation of a payload to a token budget
— keep the first `budget` tokens of the tokenized payload ("it must be
hard-truncated to that budget before insertion"). -/
def truncateToTokenBudget (enc : String → List String) (budget : Nat) (s : String) : String :=
  joinStr ((enc s).take budget)

/-- A concrete tokenizer grouping characters in pairs (a legal token
inventory: tiktoken maps frequent repeated text to multi-character
tokens). -/
def chunk2 : List Char → List String
  | [] => []
  | [c] => [String.mk [c]]
  | a :: b :: rest => String.mk [a, b] :: chunk2 rest

def enc2 (s : String) : List String := chunk2 s.data

/-- Token count induced by `enc2`. -/
def countTokens2 (s : String) : Int := ((enc2 s).length : Int)

/-- A 50000-character log payload (25000 `enc2` tokens). -/
def logsC6 : String := String.mk (List.replicate 50000 'a')

/-! The tool registry client (`execute_tool` and `fetch_tools_list`,
mcp_servers/mcp_utils.py lines 52-94).

One HTTP POST is issued per operation, against the first configured
server.  The transport is modelled as an oracle from the JSON-RPC request
payload to an outcome: `exn` when `requests.post` itself raises (a
transport-level failure — connection refused, DNS, timeout), or a response
with a status code and a body (`none` standing for a body `.json()`
rejects).  `Except.error ()` in a result models an exception escaping the
function; `Except.ok none` models the function returning Python `None`. -/

inductive HttpOutcome where
  | exn
  | resp (status : Nat) (body : Option JValue)

/-- Statuses on which `requests`' `raise_for_status` raises (client and
server HTTP errors). -/
def isHttpError (status : Nat) : Bool :=
  decide (400 ≤ status) && decide (status < 600)

/-- The JSON-RPC request for `tools/call` (lines 77-82; `request_id`
defaults to 1 at every call site). -/
def toolCallPayload (tool_name : String) (arguments : JValue) : JValue :=
  .obj [("jsonrpc", .str "2.0"), ("method", .str "tools/call"),
        ("params", .obj [("name", .str tool_name), ("arguments", arguments)]),
        ("id", .num 1)]

/-- The JSON-RPC request for `tools/list` (lines 57-62; `params` defaults
to the empty object). -/
def toolsListPayload : JValue :=
  .obj [("jsonrpc", .str "2.0"), ("method", .str "tools/list"),
        ("params", .obj []), ("id", .num 1)]

/-- Model of `mcp_utils.execute_tool`.  With no configured server: a stub
result.  `requests.post` stands before the `try` block, so a transport
failure escapes as an exception (`.error ()`).  Inside the `try`:
`raise_for_status` turns an HTTP error status into a caught exception
(`None` returned); a 'result'/'content' pair in the body is returned as
the content; a well-formed body without one yields the fallback error
list.  A body that is not a JSON object is modelled as lacking the keys
(the JSON-RPC responses the code consumes are objects). -/
def execute_tool (mcp_servers : List String) (transport : JValue → HttpOutcome)
    (tool_name : String) (arguments : JValue) : Except Unit (Option JValue) :=
  if mcp_servers.length = 0 then
    .ok (some (.arr [.obj [("message",
      .str ("Tool " ++ tool_name ++ " not available - no MCP servers configured"))]]))
  else
    match transport (toolCallPayload tool_name arguments) with
    | .exn => .error ()
    | .resp status body =>
      if isHttpError status then .ok none
      else
        match body with
        | none => .ok none
        | some j =>
          match jGet j "result" with
          | some r =>
            match jGet r "content" with
            | some content => .ok (some content)
            | none => .ok (some (.arr [.obj [("error", .str "Tool result is not a dictionary")]]))
          | none => .ok (some (.arr [.obj [("error", .str "Tool result is not a dictionary")]]))

/-- Model of `mcp_utils.fetch_tools_list`.  With no configured server the
function returns the empty list.  `requests.post` stands before the `try`
block and the final `resp.json()['result']['tools']` after it, so a
transport failure, a non-JSON body or a body without the keys escapes as
an exception; an HTTP error status returns `None`. -/
def fetch_tools_list (mcp_servers : List String) (transport : JValue → HttpOutcome) :
    Except Unit (Option JValue) :=
  if mcp_servers.length = 0 then .ok (some (.arr []))
  else
    match transport toolsListPayload with
    | .exn => .error ()
    | .resp status body =>
      if isHttpError status then .ok none
      else
        match body with
        | none => .error ()
        | some j =>
          match jGet j "result" with
          | some r =>
            match jGet r "tools" with
            | some tools => .ok (some tools)
            | none => .error ()
          | none => .error ()

/-! Script-driven workflow execution
(`WorkflowManager.execute_script_workflow`, workflow_manager.py lines
131-176).

The file-system probe and the spawned child process are modelled as
parameters: `script_exists` is the `os.path.exists` answer, and `proc` is
the outcome of `subprocess.run` — `none` when the 30s timeout kills the
child (`TimeoutExpired` is caught and `None` returned), otherwise the
completed process's exit code and captured streams. -/

/-- The result of a completed child process. -/
structure ProcResult where
  returncode : Int
  stdout : String
  stderr : String
deriving DecidableEq

/-- Model of `execute_script_workflow`: reject an empty script name or a
missing script file; a timeout, a non-zero exit code, or standard output
that `json.loads` rejects (after `strip()`) all yield `None`; otherwise
the parsed JSON document is returned. -/
def execute_script_workflow (action_script : String) (script_exists : Bool)
    (proc : Option ProcResult) : Option JValue :=
  if action_script = "" then none
  else if !script_exists then none
  else
    match proc with
    | none => none
    | some r =>
      if r.returncode != 0 then none
      else jsonLoads (pyStrip r.stdout)

/-- Split a character list at newlines. -/
def splitNl : List Char → List (List Char)
  | [] => [[]]
  | c :: cs =>
      match splitNl cs with
      | [] => [[]]
      | l :: ls => if c = '\n' then [] :: l :: ls else (c :: l) :: ls

/-- Modelled from the spec: "the child must print exactly one JSON object
as the final line of standard output" — the final line of the captured
output, after stripping surrounding whitespace. -/
def finalLine (s : String) : String :=
  String.mk (((splitNl (pyStrip s).data).getLast?).getD [])

/-! Prompt-driven workflow execution, executor side
(`WorkflowManager.execute_prompt_workflow`, workflow_manager.py lines
178-195).  When a prompt document is configured and found, its content is
injected into a copy of the message dict under the key
`specific_instructions_to_ai`, and the enriched dict is serialized as the
child's argument. -/

/-- The enriched message the executor passes to the prompt-execution
child: the event dict with the prompt document's content (when one was
read) stored under `specific_instructions_to_ai`. -/
def enhanced_message (message_data : List (String × JValue)) (prompt_content : Option String) :
    List (String × JValue) :=
  match prompt_content with
  | some pc => objSet message_data "specific_instructions_to_ai" (.str pc)
  | none => message_data

/-! The message-event handler (`SlackEventHandler.handle_message_event` and
`cleanup_processed_messages`, slack_events.py lines 21-26 and 61-165).

The Slack Web API lookups (app config, bot user id, user info, channel
name) and the downstream `workflow_manager.process_message` call are
modelled as an environment record.  `processed_messages` — a Python set of
key strings — is modelled as a duplicate-free list in insertion order (the
set's iteration order is unspecified in Python; insertion order is one
admissible refinement, used only by the eviction step). -/

/-- The fields of an inbound message event the handler reads.  `none`
models an absent key. -/
structure SlackEvent where
  type : Option String := none
  subtype : Option String := none
  bot_id : Option String := none
  ts : Option String := none
  channel : Option String := none
  user : Option String := none
  text : String := ""
  thread_ts : Option String := none
deriving DecidableEq

/-- Python f-string rendering of a possibly absent value (`None` prints as
`None`). -/
def pyFmtOpt : Option String → String
  | none => "None"
  | some s => s

/-- The dedup key (line 86): `f"{message_id}_{channel_id}_{user_id}"`. -/
def messageKey (e : SlackEvent) : String :=
  pyFmtOpt e.ts ++ "_" ++ pyFmtOpt e.channel ++ "_" ++ pyFmtOpt e.user

/-- The app configuration returned by the credentials manager. -/
structure AppConfig where
  bot_token : String := ""
  app_name : String := ""
deriving DecidableEq

/-- Substring search over character lists. -/
def subSearch (needle : List Char) : List Char → Bool
  | [] => needle.isEmpty
  | c :: rest => needle.isPrefixOf (c :: rest) || subSearch needle rest

/-- Python `needle in hay` on strings. -/
def pyIn (needle hay : String) : Bool :=
  subSearch needle.data hay.data

/-- The hard-coded bot response patterns (lines 120-124). -/
def bot_response_patterns : List String :=
  ["👋 This is a sample response from your Slack bot.", "hi 👋", "I received your message:"]

/-- Model of `is_bot_mentioned` (lines 262-278): a falsy bot user id never
matches; otherwise look for the direct `<@id>` mention, then for
`@app_name` case-insensitively. -/
def is_bot_mentioned (message_text : String) (bot_user_id : Option String)
    (app_config : Option AppConfig) : Bool :=
  match bot_user_id with
  | none => false
  | some bid =>
    if bid = "" then false
    else if pyIn ("<@" ++ bid ++ ">") message_text then true
    else
      match app_config with
      | some cfg => pyIn ("@" ++ cfg.app_name.toLower) message_text.toLower
      | none => false

/-- Model of `cleanup_processed_messages` (lines 21-26): once the set holds
more than 1000 keys, keep only the most recent 500. -/
def cleanup_processed_messages (processed : List String) : List String :=
  if processed.length > 1000 then processed.drop (processed.length - 500)
  else processed

/-- The environment of one `handle_message_event` call: the Slack API
answers and the workflow pipeline. -/
structure HandlerEnv where
  app_config : Option AppConfig
  bot_user_id : Option String
  user_info_name : String
  user_info_real_name : String
  channel_name : String
  process : SlackEvent → String → String → Bool → Option JValue

/-- The observable outcome of one `handle_message_event` call: the returned
status, the updated recently-seen set, the number of
`workflow_manager.process_message` invocations (each of which performs
workflow matching and, on a match, execution), and the number of outbound
`send_workflow_response` calls. -/
structure HandleResult where
  status : String
  processed : List String
  workflowCalls : Nat
  sent : Nat
deriving DecidableEq

/-- Model of `handle_message_event`.  In source order: drop bot messages
(`bot_id` key present); drop edited/deleted subtypes; return
`already_processed` when the dedup key is in the recently-seen set,
otherwise record the key and run the eviction step; fail without a
configured app; drop the bot's own messages and bot-patterned texts; then
hand the event to the workflow pipeline and send its response when that
response is truthy. -/
def handle_message_event (env : HandlerEnv) (e : SlackEvent) (processed : List String) :
    HandleResult :=
  if e.bot_id.isSome then { status := "ignored", processed := processed, workflowCalls := 0, sent := 0 }
  else if e.subtype = some "bot_message" || e.subtype = some "message_changed"
      || e.subtype = some "message_deleted" then
    { status := "ignored", processed := processed, workflowCalls := 0, sent := 0 }
  else
    if processed.contains (messageKey e) then
      { status := "already_processed", processed := processed, workflowCalls := 0, sent := 0 }
    else
      let processed2 := cleanup_processed_messages (processed ++ [messageKey e])
      match env.app_config with
      | none => { status := "error", processed := processed2, workflowCalls := 0, sent := 0 }
      | some cfg =>
        if e.user == env.bot_user_id then
          { status := "ignored", processed := processed2, workflowCalls := 0, sent := 0 }
        else if (match e.bot_id with | some b => b != "" | none => false) then
          { status := "ignored", processed := processed2, workflowCalls := 0, sent := 0 }
        else if bot_response_patterns.any (fun p => pyIn p e.text) then
          { status := "ignored", processed := processed2, workflowCalls := 0, sent := 0 }
        else
          let resp := env.process e env.channel_name env.user_info_real_name
            (is_bot_mentioned e.text env.bot_user_id (some cfg))
          { status := "success", processed := processed2, workflowCalls := 1,
            sent := if (match resp with | some v => jvTruthy v | none => false) then 1 else 0 }

/-! The prompt-execution child (`main`, scripts/prompt_executor.py lines
283-451).

The child receives the serialized (possibly enriched) event dict as its
argument.  Its external collaborators — the credentials manager, the
LLM-driven parameter extraction, the tool discovery, the LLM decision call
and the guarded tool execution — are modelled as an environment record.
The uncaught-exception path of `main`'s outer handler returns an error
dict whose message text is abstracted to a constant (the embedded
exception text is irrelevant to any property below). -/

/-- The LLM decision (`get_llm_decision` result): assistant content plus
requested tool calls, or `none` when the API call failed. -/
structure LlmMessage where
  content : String
  tool_calls : List ToolCall
deriving DecidableEq

/-- The outcome of `execute_tool_with_llm_guidance`: a success flag and the
result payload (the `result` value on success, the error description
otherwise; that function catches every exception). -/
structure GuidedResult where
  success : Bool
  payload : JValue
deriving DecidableEq

/-- Environment of one prompt-executor run. -/
structure ExecEnv where
  api_key : Option String
  extract_params : String → List (String × JValue)
  available_tools : List JValue
  llm : List ChatMsg → Option LlmMessage
  exec_guided : String → JValue → GuidedResult

/-- Join strings with a separator (Python `sep.join`). -/
def joinSep (sep : String) : List String → String
  | [] => ""
  | [s] => s
  | s :: y :: rest => s ++ sep ++ joinSep sep (y :: rest)

/-- Python `None` for an absent dict value. -/
def optJ : Option JValue → JValue
  | none => .null
  | some v => v

/-- The result of `main`'s outer exception handler (message text
abstracted). -/
def unexpectedError : JValue :=
  .obj [("error", .str "An unexpected error occurred")]

/-- One line of the tools description (lines 328-329):
`f"- {tool.get('name')}: {tool.get('description', 'No description')}"`. -/
def toolInfoLine (tool : JValue) : String :=
  "- " ++ (match jGet tool "name" with | some v => pyStr v | none => "None")
    ++ ": " ++ (match jGet tool "description" with | some v => pyStr v | none => "No description")

/-- The extracted-parameters description (line 331). -/
def paramsInfo (extracted : List (String × JValue)) : String :=
  if extracted.isEmpty then "None"
  else joinSep "\n" (extracted.map fun kv => "- " ++ kv.1 ++ ": " ++ pyStr kv.2)

/-- The system prompt of the executor (lines 334-384), with the three
interpolated holes. -/
def executorSystemPrompt (tools_info runbook_content params_info : String) : String :=
  "\nYou are an AI assistant that executes user instructions using available tools via MCP server.\n\n## Available Tools:\n"
  ++ tools_info
  ++ "\n\n## User's Request:\n"
  ++ runbook_content
  ++ "\n\n## Extracted Parameters:\n"
  ++ params_info
  ++ "\n\n## CRITICAL INSTRUCTIONS:\nYou MUST execute MULTIPLE tool calls for multiple instructions. For each instruction in the user's request, make a separate tool call.\n\n## Step-by-Step Process:\n1. Parse the user's request line by line\n2. For EACH instruction, determine which tool is needed\n3. Make a tool call for EACH instruction\n4. If an instruction requires finding something first (like a dashboard), make TWO tool calls:\n   - First: Find the item (e.g., grafana_fetch_all_dashboards)\n   - Second: Get the specific item (e.g., grafana_fetch_dashboard_by_id with the found UID)\n\n## Available Tools for Grafana Operations:\n- test_connection: Check Grafana connectivity\n- grafana_fetch_all_dashboards: Get all dashboards\n- grafana_fetch_dashboard_by_id: Get specific dashboard by UID\n- grafana_get_dashboard_config: Get dashboard configuration\n- grafana_fetch_datasources: Get all datasources\n- grafana_fetch_folders: Get all folders\n\n## CRITICAL INSTRUCTIONS:\nYou MUST execute MULTIPLE tool calls for multiple instructions in a single response.\n\n## EXECUTION STRATEGY:\nFor multiple instructions, you MUST make multiple tool calls in a single response.\n\n## EXAMPLE:\nUser: \"Get me a list of all the grafana dashboards. get me data from the kubernetes / api server dashboard\"\n\nYou MUST make TWO tool calls in a single response:\n1. Call grafana_fetch_all_dashboards (to get all dashboards)\n2. Call grafana_fetch_dashboard_by_id with the UID found from the first call (search for \"Kubernetes / API server\" in the results and use its UID)\n\n## IMPORTANT:\n- Make ALL necessary tool calls in a single response\n- Execute tools in logical order (find first, then get specific)\n- Use the exact tool names and parameters needed\n- For the second instruction, find the dashboard UID from the first tool call results\n- Search for the dashboard title in the results and extract its UID dynamically\n"

/-- The sequential tool-execution loop of `main` (lines 413-428): per tool
call, parse the arguments (`json.loads` without a local handler: a parse
failure escapes to the outer handler, modelled as `none`), run the guided
execution, and collect the result dict plus the success or error line. -/
def executorLoop (env : ExecEnv) : List ToolCall → Option (List JValue × List String × List String)
  | [] => some ([], [], [])
  | tc :: rest =>
    match jsonLoads tc.arguments with
    | none => none
    | some args =>
      let g := env.exec_guided tc.name args
      let gj : JValue :=
        if g.success then
          .obj [("success", .bool true), ("result", g.payload), ("tool", .str tc.name)]
        else
          .obj [("success", .bool false), ("error", g.payload), ("tool", .str tc.name)]
      match executorLoop env rest with
      | none => none
      | some (tcs, results, errors) =>
        if g.success then
          some (gj :: tcs, ("✅ " ++ tc.name ++ ": " ++ pyStr g.payload) :: results, errors)
        else
          some (gj :: tcs, results, ("❌ " ++ tc.name ++ ": " ++ pyStr g.payload) :: errors)

/-- The final response dict of `main` (lines 432-447). -/
def executorResponse (channel_id message_ts : Option JValue) (tool_calls : List JValue)
    (results errors : List String) : JValue :=
  let base := if results.isEmpty then "No tools were executed."
    else "**Runbook Execution Results:**\n\n" ++ joinSep "\n\n" results
  let response_text := if errors.isEmpty then base
    else base ++ "\n\n**Errors:**\n" ++ joinSep "\n" errors
  .obj [("text", .str response_text), ("channel", optJ channel_id),
        ("thread_ts", optJ message_ts), ("tool_calls", .arr tool_calls),
        ("errors", .arr (errors.map JValue.str))]

/-- The body of `main` as a function of the four message fields the child
reads — `channel`, `ts`, `text` and `prompt_content` — and the
environment.  A non-string `text` value makes `.strip()` raise (outer
handler); `prompt_content` is interpolated with `str()`. -/
def executorMainBody (env : ExecEnv) (channel_id message_ts : Option JValue)
    (textV : Option JValue) (promptV : Option JValue) : JValue :=
  let textS : Option String :=
    match textV with
    | none => some ""
    | some (.str s) => some s
    | some _ => none
  match textS with
  | none => unexpectedError
  | some text =>
    let user_message := pyStrip text
    if user_message = "" then
      .obj [("text", .str "Please provide a message."), ("channel", optJ channel_id),
            ("thread_ts", optJ message_ts)]
    else if (match env.api_key with | none => true | some k => k = "") then
      .obj [("text", .str "Error: OpenAI API key not found."), ("channel", optJ channel_id),
            ("thread_ts", optJ message_ts)]
    else
      let extracted := env.extract_params user_message
      if env.available_tools.isEmpty then
        .obj [("text", .str "Error: Could not retrieve tools from the MCP server."),
              ("channel", optJ channel_id), ("thread_ts", optJ message_ts)]
      else
        let runbook_content : String :=
          match promptV with
          | none => ""
          | some v => pyStr v
        let tools_info := joinSep "\n" (env.available_tools.map toolInfoLine)
        let system_prompt := executorSystemPrompt tools_info runbook_content (paramsInfo extracted)
        let messages := [ChatMsg.system system_prompt,
          ChatMsg.user "Execute the runbook based on the available tools and extracted parameters."]
        match env.llm messages with
        | none => executorResponse channel_id message_ts [] [] ["❌ Failed to get LLM decision"]
        | some m =>
          if m.tool_calls.isEmpty then
            executorResponse channel_id message_ts [] [] []
          else
            match executorLoop env m.tool_calls with
            | none => unexpectedError
            | some (tcs, results, errors) =>
              executorResponse channel_id message_ts tcs results errors

/-- Model of the prompt executor's `main`: the child reads exactly the keys
`channel`, `ts`, `text` and `prompt_content` of its argument dict. -/
def promptExecutorMain (env : ExecEnv) (slack_message : List (String × JValue)) : JValue :=
  executorMainBody env (slack_message.lookup "channel") (slack_message.lookup "ts")
    (slack_message.lookup "text") (slack_message.lookup "prompt_content")

/-! Concrete fixtures used by witnesses and counterexamples. -/

/-- A workflow with a content pattern. -/
def wfDb : Workflow := { name := some "db-watch", wildcard := some "db" }

/-- A workflow with no predicates (matches everything). -/
def wfAll : Workflow := { name := some "fallthrough" }

/-- A workflow whose content pattern carries a trailing `*`. -/
def wfDbStar : Workflow := { name := some "db-glob", wildcard := some "db*" }

/-- A workflow requiring an app mention. -/
def wfMention : Workflow := { name := some "mention-only", app_mention_required := true }

/-- An oracle answering with no tool calls. -/
def oracleNoTools : List ChatMsg → ModelTurn :=
  fun _ => { content := "hello", tool_calls := [] }

/-- An oracle requesting one tool call on the first turn, none afterwards. -/
def oracleOneTool : List ChatMsg → ModelTurn :=
  fun msgs =>
    if msgs.length ≤ 1 then
      { content := "step", tool_calls := [{ id := "c1", name := "t", arguments := "\x7b\x7d" }] }
    else { content := "done", tool_calls := [] }

/-- A tool oracle with a fixed answer. -/
def execW : String → JValue → Option JValue :=
  fun _ _ => some (.arr [.obj [("message", .str "ok")]])

/-- A transport where every request raises in `requests.post`. -/
def transportDown : JValue → HttpOutcome := fun _ => .exn

/-- A child process that exits cleanly but prints a log line before its
JSON line. -/
def procC8 : ProcResult := { returncode := 0, stdout := "hello\n\x7b\x7d", stderr := "" }

/-- A child process honouring the interprocess contract. -/
def procOK : ProcResult :=
  { returncode := 0, stdout := " \x7b\"text\": \"hi\"\x7d\n", stderr := "" }

/-- A handler environment whose workflow pipeline matches and answers. -/
def envW : HandlerEnv :=
  { app_config := some { bot_token := "xoxb-1", app_name := "drdroid" },
    bot_user_id := some "UBOT",
    user_info_name := "alice",
    user_info_real_name := "Alice",
    channel_name := "general",
    process := fun _ _ _ _ => some (.obj [("text", .str "done"), ("channel", .str "C1")]) }

/-- A handler environment whose workflow pipeline never matches. -/
def envNoMatch : HandlerEnv :=
  { app_config := some { bot_token := "xoxb-1", app_name := "drdroid" },
    bot_user_id := some "UBOT",
    user_info_name := "alice",
    user_info_real_name := "Alice",
    channel_name := "general",
    process := fun _ _ _ _ => none }

/-- A plain user message event. -/
def eW : SlackEvent :=
  { type := some "message", ts := some "100.1", channel := some "C1",
    user := some "U1", text := "hello db" }

/-! Theorems. -/

theorem mention_guard_eq (w : Workflow) (m : Bool) :
    (w.app_mention_required && !m) = !mentionPred w m := by
  simp [mentionPred]

theorem channel_guard_eq (w : Workflow) (ch : String) :
    (match w.channel_name with
     | some wc => wc != "*" && wc.toLower != ch.toLower
     | none => false) = !channelPred w ch := by
  cases h : w.channel_name <;> simp [channelPred, h, bne, Bool.not_or]

theorem user_guard_eq (w : Workflow) (u : String) :
    (match w.user_name with
     | some wu => wu != "*" && wu.toLower != u.toLower
     | none => false) = !userPred w u := by
  cases h : w.user_name <;> simp [userPred, h, bne, Bool.not_or]

theorem content_guard_eq (w : Workflow) (t : String) :
    (match w.wildcard with
     | some wp => wp != "" && !wildcardSearch wp t
     | none => false) = !contentPred w t := by
  cases h : w.wildcard <;> simp [contentPred, h, bne, Bool.not_or]

/-- The matcher's continue-chain equals a first-match search with the
conjunction of the four predicates. -/
theorem match_workflow_eq_find (ws : List Workflow) (md : MessageData)
    (ch u : String) (m : Bool) :
    match_workflow ws md ch u m = ws.find? (fun w => workflowMatches w md ch u m) := by
  induction ws with
  | nil => rfl
  | cons w rest ih =>
    rw [match_workflow, List.find?_cons, mention_guard_eq w m, channel_guard_eq w ch,
      user_guard_eq w u, content_guard_eq w md.text]
    by_cases p1 : mentionPred w m <;> by_cases p2 : channelPred w ch <;>
      by_cases p3 : userPred w u <;> by_cases p4 : contentPred w md.text <;>
      simp [workflowMatches, p1, p2, p3, p4, ih]

/-- C1: for every ordered workflow list and every event (with derived
channel name, user name and mention flag), `match_workflow` returns the
first definition in list order all of whose predicates — the
mention-required check, then the channel filter with `*` matching all,
then the user filter, then the content pattern, short-circuit in that
order — hold, and `None` exactly when no definition qualifies. -/
theorem C1_match_first_qualifying (ws : List Workflow) (md : MessageData)
    (ch u : String) (m : Bool) :
    match_workflow ws md ch u m = ws.find? (fun w => workflowMatches w md ch u m) ∧
    (match_workflow ws md ch u m = none ↔ ∀ w ∈ ws, workflowMatches w md ch u m = false) ∧
    (∀ w, match_workflow ws md ch u m = some w → workflowMatches w md ch u m = true) := by
  refine ⟨match_workflow_eq_find ws md ch u m, ?_, ?_⟩
  · rw [match_workflow_eq_find ws md ch u m]
    simp [List.find?_eq_none]
  · intro w hw
    rw [match_workflow_eq_find ws md ch u m] at hw
    have hx := List.find?_some hw
    simpa using hx

/-- Witness for C1 at a concrete list and event: the first qualifying
definition (here the second list entry) is selected. -/
theorem C1_witness :
    match_workflow [wfMention, wfDb, wfAll] ⟨"hello db"⟩ "general" "Alice" false = some wfDb ∧
    workflowMatches wfDb ⟨"hello db"⟩ "general" "Alice" false = true := by
  have h := C1_match_first_qualifying [wfMention, wfDb, wfAll] ⟨"hello db"⟩ "general" "Alice" false
  have hf : ([wfMention, wfDb, wfAll].find?
      (fun w => workflowMatches w ⟨"hello db"⟩ "general" "Alice" false)) = some wfDb := by rfl
  exact ⟨h.1.trans hf, h.2.2 wfDb (h.1.trans hf)⟩

/-- C2 counterexample: the claim says pattern `db*` matches
`database-issue`, but the translated regex `db.*` needs the contiguous
substring `db`, which `database-issue` does not contain; the matcher
rejects a workflow whose only pattern is `db*` on that text. -/
theorem C2_counterexample :
    wildcardSearch "db*" "database-issue" = false ∧
    match_workflow [wfDbStar] ⟨"database-issue"⟩ "general" "Alice" false = none := by
  exact ⟨rfl, rfl⟩

/-- C2 (amended): the translation maps `*` to `.*` and `?` to `.`, adding
word-boundary anchors when the pattern has no `*`; consequently `db*` does
not match `database-issue` (no contiguous `db`) though it does match
`db-issue`, and `db` does not match `database` but does match ` db `. -/
theorem C2_wildcard_translation :
    regexPatternOfWildcard "db*" = "db.*" ∧
    regexPatternOfWildcard "db" = "\\bdb\\b" ∧
    regexPatternOfWildcard "a?c" = "\\ba.c\\b" ∧
    wildcardSearch "db*" "database-issue" = false ∧
    wildcardSearch "db*" "db-issue" = true ∧
    wildcardSearch "db" "database" = false ∧
    wildcardSearch "db" " db " = true := by
  exact ⟨rfl, rfl, rfl, rfl, rfl, rfl, rfl⟩

/-- C3: when a model turn returns zero tool calls, the run returns exactly
one event — a `chat_text` carrying the response text — and performs zero
tool invocations. -/
theorem C3_zero_tool_calls (oracle : List ChatMsg → ModelTurn)
    (execTool : String → JValue → Option JValue) (messages : List ChatMsg) (fuel : Nat)
    (h : (oracle messages).tool_calls = []) :
    agent_with_tools oracle execTool (fuel + 1) messages
      = some [AgentEvent.chat_text (oracle messages).content] ∧
    countToolResults [AgentEvent.chat_text (oracle messages).content] = 0 := by
  constructor
  · rw [agent_with_tools]
    simp [h]
  · rfl

/-- Witness for C3: a concrete oracle answering without tool calls. -/
theorem C3_witness :
    agent_with_tools oracleNoTools execW 1 [] = some [AgentEvent.chat_text "hello"] ∧
    countToolResults [AgentEvent.chat_text "hello"] = 0 :=
  C3_zero_tool_calls oracleNoTools execW [] 0 rfl

/-- C4: when a model turn returns N > 0 tool calls, the loop performs
exactly N tool invocations before its recursive call (one `tool_result`
event and one tool message per call, in return order), and the message
list passed to the recursive call is the input list extended by exactly
N + 1 entries: one assistant message recording the tool-call intents
followed by the N tool-role messages. -/
theorem C4_tool_bookkeeping (oracle : List ChatMsg → ModelTurn)
    (execTool : String → JValue → Option JValue) (messages : List ChatMsg) (fuel : Nat)
    (N : Nat) (hN : (oracle messages).tool_calls.length = N) (hpos : 0 < N) :
    ((oracle messages).tool_calls.map (toolEventOf execTool)).length = N ∧
    ((oracle messages).tool_calls.map (toolMsgOf execTool)).length = N ∧
    nextMessages execTool messages (oracle messages)
      = messages ++ ChatMsg.assistant (oracle messages).content (oracle messages).tool_calls
        :: (oracle messages).tool_calls.map (toolMsgOf execTool) ∧
    (nextMessages execTool messages (oracle messages)).length = messages.length + (N + 1) ∧
    agent_with_tools oracle execTool (fuel + 1) messages
      = (agent_with_tools oracle execTool fuel
          (nextMessages execTool messages (oracle messages))).map
          (fun evs => AgentEvent.chat_text (oracle messages).content
            :: (oracle messages).tool_calls.map (toolEventOf execTool) ++ evs) := by
  refine ⟨by simp [hN], by simp [hN], rfl, ?_, ?_⟩
  · simp [nextMessages, hN]
  · rw [agent_with_tools]
    cases htc : (oracle messages).tool_calls with
    | nil => rw [htc] at hN; simp at hN; omega
    | cons t ts =>
      simp only [htc]
      cases hr : agent_with_tools oracle execTool fuel
          (nextMessages execTool messages (oracle messages)) with
      | none => simp [nextMessages, htc] at hr ⊢
      | some evs => simp [nextMessages, htc] at hr ⊢

/-- Witness for C4: a concrete oracle requesting one tool call on its
first turn. -/
theorem C4_witness :
    ((oracleOneTool []).tool_calls.map (toolEventOf execW)).length = 1 ∧
    ((oracleOneTool []).tool_calls.map (toolMsgOf execW)).length = 1 ∧
    nextMessages execW [] (oracleOneTool [])
      = [] ++ ChatMsg.assistant (oracleOneTool []).content (oracleOneTool []).tool_calls
        :: (oracleOneTool []).tool_calls.map (toolMsgOf execW) ∧
    (nextMessages execW [] (oracleOneTool [])).length = ([] : List ChatMsg).length + (1 + 1) ∧
    agent_with_tools oracleOneTool execW 2 []
      = (agent_with_tools oracleOneTool execW 1
          (nextMessages execW [] (oracleOneTool []))).map
          (fun evs => AgentEvent.chat_text (oracleOneTool []).content
            :: (oracleOneTool []).tool_calls.map (toolEventOf execW) ++ evs) :=
  C4_tool_bookkeeping oracleOneTool execW [] 1 1 rfl (by decide)

/-- C5: the claim says the loop is bounded by an explicit maximum turn
count; the code has no such bound.  Against a model that requests a tool
call on every turn, the run exhausts every fuel allowance — it never
returns by itself, so no turn count bounds the recursion.  (`fuel` is the
embedding's artifact, not a bound in the code; a source-level run is the
limit of unbounded fuel.) -/
theorem C5_agent_loop_unbounded (execTool : String → JValue → Option JValue)
    (fuel : Nat) (messages : List ChatMsg) :
    agent_with_tools alwaysToolOracle execTool fuel messages = none := by
  induction fuel generalizing messages with
  | zero => rfl
  | succ n ih =>
    rw [agent_with_tools]
    simp [alwaysToolOracle, ih]

theorem stringDataEq {a b : String} (h : a.data = b.data) : a = b := by
  cases a; cases b; exact congrArg String.mk h

theorem joinStr_data : ∀ l : List String, (joinStr l).data = (l.map String.data).flatten
  | [] => rfl
  | s :: rest => by
      simp only [joinStr, List.map_cons, List.flatten_cons]
      show s.data ++ (joinStr rest).data = _
      rw [joinStr_data rest]

theorem chunk2_replicate (c : Char) : ∀ n : Nat,
    chunk2 (List.replicate (2 * n) c) = List.replicate n (String.mk [c, c])
  | 0 => rfl
  | n + 1 => by
      have h2 : 2 * (n + 1) = (2 * n) + 1 + 1 := by ring
      rw [h2, List.replicate_succ, List.replicate_succ, chunk2, chunk2_replicate c n,
        List.replicate_succ]

theorem chunk2_data_join : ∀ cs : List Char, (joinStr (chunk2 cs)).data = cs
  | [] => rfl
  | [c] => by simp [chunk2, joinStr]
  | a :: b :: rest => by
      simp only [chunk2, joinStr]
      show (String.mk [a, b]).data ++ (joinStr (chunk2 rest)).data = _
      rw [chunk2_data_join rest]
      rfl

theorem chunk2_tokens_ne : ∀ (cs : List Char) (t : String), t ∈ chunk2 cs → t ≠ ""
  | [], t, h => absurd h (by simp [chunk2])
  | [c], t, h => by
      simp [chunk2] at h
      subst h
      intro he
      exact absurd (congrArg String.data he) (by simp)
  | a :: b :: rest, t, h => by
      simp only [chunk2, List.mem_cons] at h
      rcases h with h | h
      · subst h
        intro he
        exact absurd (congrArg String.data he) (by simp)
      · exact chunk2_tokens_ne rest t h

theorem enc2_valid : validTokenizer enc2 := by
  intro s
  exact ⟨stringDataEq (chunk2_data_join s.data), fun t ht => chunk2_tokens_ne s.data t ht⟩

theorem enc2_logsC6 : enc2 logsC6 = List.replicate 25000 (String.mk ['a', 'a']) := by
  show chunk2 (List.replicate 50000 'a') = _
  have h50 : (50000 : Nat) = 2 * 25000 := by norm_num
  rw [h50, chunk2_replicate]

theorem countTokens2_logsC6 : countTokens2 logsC6 = 25000 := by
  rw [countTokens2, enc2_logsC6, List.length_replicate]
  rfl

theorem insertedC6 : insertedLogsPayload countTokens2 logsC6 = pySlice 20000 logsC6 := by
  rw [insertedLogsPayload, countTokens2_logsC6]
  norm_num

theorem insertedC6_len : (insertedLogsPayload countTokens2 logsC6).data.length = 20000 := by
  rw [insertedC6]
  show ((List.replicate 50000 'a').take 20000).length = 20000
  rw [List.take_replicate, List.length_replicate]
  norm_num

theorem truncC6_len : (truncateToTokenBudget enc2 20000 logsC6).data.length = 40000 := by
  rw [truncateToTokenBudget, enc2_logsC6, List.take_replicate, joinStr_data]
  norm_num [List.map_replicate, List.sum_replicate]

theorem count_le_joinStr_len : ∀ l : List String, (∀ t ∈ l, t ≠ "") →
    l.length ≤ (joinStr l).data.length
  | [], _ => Nat.le_refl 0
  | s :: rest, h => by
      have hs : 1 ≤ s.data.length := by
        rcases s with ⟨cs⟩
        cases cs with
        | nil => exact absurd rfl (h _ (List.mem_cons_self _ _))
        | cons c cs' => simp
      have hlen : (s ++ joinStr rest).data.length = s.data.length + (joinStr rest).data.length := by
        show (s.data ++ (joinStr rest).data).length = _
        rw [List.length_append]
      show (s :: rest).length ≤ (s ++ joinStr rest).data.length
      rw [hlen, List.length_cons]
      have ih := count_le_joinStr_len rest (fun t ht => h t (List.mem_cons_of_mem _ ht))
      omega

/-- C6 counterexample: the claim says an over-budget payload is inserted
as "the hard truncation of the payload to that token budget".  For the
(valid) pair tokenizer and a 50000-character payload of 25000 tokens, the
truncation to the 20000-token budget keeps 40000 characters, while the
code inserts `str(logs_data)[:20000]` — its first 20000 characters.  The
two differ: the cut is by characters, not by tokens. -/
theorem C6_counterexample :
    countTokens2 logsC6 > 20000 ∧
    validTokenizer enc2 ∧
    insertedLogsPayload countTokens2 logsC6 ≠ truncateToTokenBudget enc2 20000 logsC6 := by
  refine ⟨by rw [countTokens2_logsC6]; norm_num, enc2_valid, ?_⟩
  intro he
  have hl := congrArg (fun s => s.data.length) he
  simp only at hl
  rw [insertedC6_len, truncC6_len] at hl
  exact absurd hl (by norm_num)

/-- C6 (amended): a payload whose token count exceeds the 20000-token
budget is inserted as the hard truncation of the payload to its first
20000 characters — a lossy cutoff, not a summary, and within the token
budget, since no tokenizer makes more tokens than characters — while a
payload at or under the budget is inserted unchanged. -/
theorem C6_truncation_by_characters (count_tokens : String → Int) (logs : String)
    (messages : List ChatMsg) :
    (count_tokens logs > 20000 →
      log_analyser_messages count_tokens logs messages
        = messages ++ [ChatMsg.user ("Logs start here\n\n" ++ pySlice 20000 logs)] ∧
      (insertedLogsPayload count_tokens logs).data.length ≤ 20000 ∧
      (∀ enc, validTokenizer enc →
        (enc (insertedLogsPayload count_tokens logs)).length ≤ 20000)) ∧
    (count_tokens logs ≤ 20000 →
      log_analyser_messages count_tokens logs messages
        = messages ++ [ChatMsg.user ("Logs start here\n\n" ++ logs)]) := by
  constructor
  · intro hgt
    have hip : insertedLogsPayload count_tokens logs = pySlice 20000 logs := by
      rw [insertedLogsPayload, if_pos hgt]
    have hslice : (pySlice 20000 logs).data.length ≤ 20000 := by
      show ((logs.data).take 20000).length ≤ 20000
      rw [List.length_take]
      exact min_le_left _ _
    refine ⟨by rw [log_analyser_messages, hip], by rw [hip]; exact hslice, ?_⟩
    intro enc henc
    have h1 := (henc (insertedLogsPayload count_tokens logs)).1
    have h2 := (henc (insertedLogsPayload count_tokens logs)).2
    have hle := count_le_joinStr_len (enc (insertedLogsPayload count_tokens logs)) h2
    rw [h1] at hle
    rw [hip] at hle ⊢
    exact hle.trans hslice
  · intro hle
    rw [log_analyser_messages, insertedLogsPayload, if_neg (by omega)]

/-- Witness for C6: a token-count oracle over the budget triggers the
character cut; one under the budget leaves the payload unchanged. -/
theorem C6_witness :
    (30000 : Int) > 20000 ∧
    log_analyser_messages (fun _ => 30000) "hi" []
      = [ChatMsg.user ("Logs start here\n\n" ++ pySlice 20000 "hi")] ∧
    log_analyser_messages (fun _ => 10) "hi" []
      = [ChatMsg.user ("Logs start here\n\nhi")] :=
  ⟨by norm_num,
   ((C6_truncation_by_characters (fun _ => 30000) "hi" []).1 (by norm_num)).1,
   (C6_truncation_by_characters (fun _ => 10) "hi" []).2 (by norm_num)⟩

/-- C7 counterexample: the claim says a transport-level failure returns a
failed result and never raises past the client boundary; but
`requests.post` stands outside the `try` block, so its exception escapes
`execute_tool` (`Except.error` marks the escaped exception). -/
theorem C7_counterexample :
    execute_tool ["grafana-mcp-server"] transportDown "test_connection" (.obj []) = .error () := rfl

/-- C7 (amended): an HTTP error response (a 4xx/5xx status, the ones
`raise_for_status` treats as errors) makes a tool invocation return the
failed result `None` without raising; a transport-level failure, by
contrast, raises past the boundary; and with an empty registry of
configured tool servers, listing tools returns the empty list. -/
theorem C7_registry_failure_modes (servers : List String) (transport : JValue → HttpOutcome)
    (tool_name : String) (arguments : JValue) (status : Nat) (body : Option JValue) :
    fetch_tools_list [] transport = .ok (some (.arr [])) ∧
    (servers ≠ [] → isHttpError status = true →
      execute_tool servers (fun _ => .resp status body) tool_name arguments = .ok none) ∧
    (servers ≠ [] → execute_tool servers (fun _ => .exn) tool_name arguments = .error ()) := by
  have hlen : servers ≠ [] → ¬ servers.length = 0 := by
    intro hs
    cases servers with
    | nil => exact absurd rfl hs
    | cons a l => simp
  refine ⟨rfl, ?_, ?_⟩
  · intro hs hstat
    rw [execute_tool, if_neg (hlen hs)]
    simp [hstat]
  · intro hs
    rw [execute_tool, if_neg (hlen hs)]

/-- Witness for C7: a 500 response yields `None`; the empty registry
yields the empty tool list. -/
theorem C7_witness :
    (["grafana-mcp-server"] : List String) ≠ [] ∧
    execute_tool ["grafana-mcp-server"] (fun _ => .resp 500 none) "test_connection" (.obj [])
      = .ok none ∧
    fetch_tools_list [] transportDown = .ok (some (.arr [])) := by
  have h := C7_registry_failure_modes ["grafana-mcp-server"] transportDown
    "test_connection" (.obj []) 500 none
  exact ⟨by simp, h.2.1 (by simp) (by decide), h.1⟩

/-- C8 counterexample: the claim says a zero-exit child whose final stdout
line is one well-formed JSON object gets that object returned; but the
code parses the whole of stdout, so a child that logs `hello` before its
JSON line is rejected (`execute` returns `None`) although its final line
is the well-formed object. -/
theorem C8_counterexample :
    procC8.returncode = 0 ∧
    finalLine procC8.stdout = "\x7b\x7d" ∧
    jsonLoads (finalLine procC8.stdout) = some (.obj []) ∧
    execute_script_workflow "sample_response.py" true (some procC8) = none :=
  ⟨rfl, rfl, rfl, rfl⟩

theorem handle_sent_zero (env : HandlerEnv) (e : SlackEvent) (processed : List String)
    (hnone : ∀ e' ch un m, env.process e' ch un m = none) :
    (handle_message_event env e processed).sent = 0 := by
  rw [handle_message_event]
  split
  · rfl
  · split
    · rfl
    · split
      · rfl
      · split
        · rfl
        · split
          · rfl
          · split
            · rfl
            · split
              · rfl
              · simp [hnone]

/-- C8 (amended): `execute` returns the parsed object exactly when the
script is named and present, the child neither times out nor exits
non-zero, and the child's entire standard output — not merely its final
line — is one well-formed JSON document after stripping surrounding
whitespace; in every other case it returns `None`, and a `None` workflow
result produces no outbound message. -/
theorem C8_script_contract (action_script : String) (script_exists : Bool)
    (proc : Option ProcResult) (v : JValue) (env : HandlerEnv) (e : SlackEvent)
    (processed : List String) :
    (execute_script_workflow action_script script_exists proc = some v ↔
      action_script ≠ "" ∧ script_exists = true ∧
      ∃ r, proc = some r ∧ r.returncode = 0 ∧ jsonLoads (pyStrip r.stdout) = some v) ∧
    ((∀ e' ch un m, env.process e' ch un m = none) →
      (handle_message_event env e processed).sent = 0) := by
  refine ⟨?_, handle_sent_zero env e processed⟩
  rcases proc with _ | r
  · cases script_exists <;> by_cases h1 : action_script = "" <;>
      simp [execute_script_workflow, h1]
  · cases script_exists <;> by_cases h1 : action_script = "" <;>
      by_cases h2 : r.returncode = 0 <;>
      simp [execute_script_workflow, h1, h2, bne]

/-- Witness for C8: a compliant child's JSON is returned; a never-matching
pipeline sends nothing. -/
theorem C8_witness :
    execute_script_workflow "sample_response.py" true (some procOK)
      = some (.obj [("text", .str "hi")]) ∧
    (handle_message_event envNoMatch eW []).sent = 0 := by
  have h := C8_script_contract "sample_response.py" true (some procOK)
    (.obj [("text", .str "hi")]) envNoMatch eW []
  exact ⟨h.1.mpr ⟨by decide, rfl, procOK, rfl, rfl, by rfl⟩, h.2 (fun _ _ _ _ => rfl)⟩

theorem handle_calls_le_one (env : HandlerEnv) (e : SlackEvent) (processed : List String) :
    (handle_message_event env e processed).workflowCalls ≤ 1 := by
  rw [handle_message_event]
  split
  · simp
  · split
    · simp
    · split
      · simp
      · split
        · simp
        · split
          · simp
          · split
            · simp
            · split
              · simp
              · simp

/-- C9: delivering a second event with the same (message id, channel,
user) triple while the first delivery's key is still in the recently-seen
set triggers the workflow pipeline at most once across the two
deliveries: the second is answered `already_processed`, performs no
workflow call, sends nothing, and leaves the set unchanged. -/
theorem C9_dedup_redelivery (env : HandlerEnv) (e : SlackEvent) (s : List String)
    (hbot : e.bot_id = none)
    (hs1 : e.subtype ≠ some "bot_message")
    (hs2 : e.subtype ≠ some "message_changed")
    (hs3 : e.subtype ≠ some "message_deleted")
    (hkey : (handle_message_event env e s).processed.contains (messageKey e) = true) :
    (handle_message_event env e (handle_message_event env e s).processed).status
      = "already_processed" ∧
    (handle_message_event env e (handle_message_event env e s).processed).processed
      = (handle_message_event env e s).processed ∧
    (handle_message_event env e (handle_message_event env e s).processed).workflowCalls = 0 ∧
    (handle_message_event env e (handle_message_event env e s).processed).sent = 0 ∧
    (handle_message_event env e s).workflowCalls
      + (handle_message_event env e (handle_message_event env e s).processed).workflowCalls
        ≤ 1 := by
  have h2 : handle_message_event env e (handle_message_event env e s).processed
      = { status := "already_processed",
          processed := (handle_message_event env e s).processed,
          workflowCalls := 0, sent := 0 } := by
    have hmem := hkey
    simp at hmem
    rw [handle_message_event]
    simp [hbot, hs1, hs2, hs3, hmem]
  rw [h2]
  refine ⟨rfl, rfl, rfl, rfl, ?_⟩
  have hle := handle_calls_le_one env e s
  show (handle_message_event env e s).workflowCalls + 0 ≤ 1
  omega

/-- Witness for C9: a concrete first delivery stores the key; redelivering
the identical event is suppressed. -/
theorem C9_witness :
    (handle_message_event envW eW (handle_message_event envW eW []).processed).status
      = "already_processed" ∧
    (handle_message_event envW eW (handle_message_event envW eW []).processed).processed
      = (handle_message_event envW eW []).processed ∧
    (handle_message_event envW eW (handle_message_event envW eW []).processed).workflowCalls = 0 ∧
    (handle_message_event envW eW (handle_message_event envW eW []).processed).sent = 0 ∧
    (handle_message_event envW eW []).workflowCalls
      + (handle_message_event envW eW (handle_message_event envW eW []).processed).workflowCalls
        ≤ 1 :=
  C9_dedup_redelivery envW eW [] rfl (by decide) (by decide) (by decide) (by decide)

theorem lookup_objSet_self : ∀ (kvs : List (String × JValue)) (k : String) (v : JValue),
    (objSet kvs k v).lookup k = some v
  | [], k, v => by simp [objSet, List.lookup]
  | (a, w) :: rest, k, v => by
      by_cases h : a = k
      · subst h
        simp [objSet, List.lookup]
      · simp only [objSet, if_neg h, List.lookup]
        have hb : (k == a) = false := by
          simp [beq_iff_eq]
          exact fun he => h he.symm
        rw [hb]
        exact lookup_objSet_self rest k v

theorem lookup_objSet_ne : ∀ (kvs : List (String × JValue)) (k k' : String) (v : JValue),
    k' ≠ k → (objSet kvs k v).lookup k' = kvs.lookup k'
  | [], k, k', v, h => by
      have hb : (k' == k) = false := by simp [beq_iff_eq, h]
      simp [objSet, List.lookup, hb]
  | (a, w) :: rest, k, k', v, h => by
      by_cases ha : a = k
      · subst ha
        simp only [objSet, if_pos rfl, List.lookup]
        have hb : (k' == a) = false := by simp [beq_iff_eq, h]
        rw [hb]
      · simp only [objSet, if_neg ha, List.lookup]
        cases hb : k' == a with
        | true => rfl
        | false => exact lookup_objSet_ne rest k k' v h

/-- C10: the executor injects the prompt document's content under the key
`specific_instructions_to_ai`, but the prompt-execution child reads its
runbook only from the key `prompt_content`; hence two runs whose inputs
differ only in the injected document content produce identical child
output — the injected instructions never influence the result. -/
theorem C10_injected_instructions_inert (env : ExecEnv) (msg : List (String × JValue))
    (p1 p2 : String) :
    (enhanced_message msg (some p1)).lookup "specific_instructions_to_ai" = some (.str p1) ∧
    promptExecutorMain env (enhanced_message msg (some p1))
      = promptExecutorMain env (enhanced_message msg (some p2)) := by
  have hmain : ∀ p : String,
      promptExecutorMain env (enhanced_message msg (some p)) = promptExecutorMain env msg := by
    intro p
    rw [promptExecutorMain, promptExecutorMain, enhanced_message]
    rw [lookup_objSet_ne msg _ "channel" _ (by decide),
      lookup_objSet_ne msg _ "ts" _ (by decide),
      lookup_objSet_ne msg _ "text" _ (by decide),
      lookup_objSet_ne msg _ "prompt_content" _ (by decide)]
  exact ⟨lookup_objSet_self msg _ _, (hmain p1).trans (hmain p2).symm⟩

end SlackBot
